import Mathlib

/-!
Verification development for the measurement-annotation core of the r3cap
editing client: the mode state machine and the client-side reconciliation
handlers in `editingClient/src/gui/desktop/MeasureMenuController.ts` together
with the plate objects of `editingClient/src/gui/MeasurementPlateObject.ts`.

Modelling conventions:

* Points are exact rational 3-vectors; Babylon's `Vector3.Distance` is the
  Euclidean distance into the reals.
* A `MeasurementPlateObject` is modelled by its data fields plus the presence
  and color of each visual component (dashed line, text mesh, the two endpoint
  collider spheres) and the `measurementId` stored in the collider metadata.
* `measurementsList` and `plateObjects` only ever receive entries at the single
  insertion site (`TryAddMeasurementObject`), which stores one and the same
  object under the same key in both maps, and entries are only removed by
  `ReceiveDeleteMeasurementRequestFromServer`, which removes the key from both.
  Whenever both maps contain a key they therefore hold the same object, and
  mutations performed through either alias are visible through both.  The model
  keeps every object once (`objects`) with one membership flag per map
  (`ml` for `measurementsList`, `po` for `plateObjects`).
* `selectedPlateObject` likewise aliases `objects selectedMeasurementId`
  (established by `StartMovingPoint`); it is kept as a presence flag.
* Outbound `SocketHandler.SendData` calls are recorded in `outbox` (the
  transport is external; a send is modelled as succeeding, matching the happy
  path of each try/catch).  `console.warn` / `console.error` emissions are
  recorded in `warnings`; purely informational `console.log` calls are not
  tracked.  GUI button visuals (`UpdateActionButtonStates`) are out of scope.
-/

/-- A 3D point with exact coordinates, modelling the data of a Babylon
`Vector3`. -/
structure Vec3 where
  x : ℚ
  y : ℚ
  z : ℚ
deriving DecidableEq, Repr

/-- Squared Euclidean distance between two points. -/
def sqDist (a b : Vec3) : ℚ :=
  (a.x - b.x) ^ 2 + (a.y - b.y) ^ 2 + (a.z - b.z) ^ 2

/-- Euclidean distance, modelling Babylon `Vector3.Distance`. -/
noncomputable def dist3 (a b : Vec3) : ℝ :=
  Real.sqrt ((sqDist a b : ℚ) : ℝ)

/-- A point as it arrives on the wire: either a structured `Vector3`
(the `instanceof Vector3` branch), or a loosely typed record whose components
may use the `_x` or the `x` spelling, either of which may be absent. -/
inductive WirePoint where
  | vec (v : Vec3)
  | record (ux uy uz px py pz : Option ℚ)
deriving DecidableEq, Repr

/-- Defensive point decoding used by the inbound create and update handlers:
`sp._x !== undefined ? sp._x : (sp.x !== undefined ? sp.x : 0)`, per
component. -/
def decodePoint : WirePoint → Vec3
  | .vec v => v
  | .record ux uy uz px py pz =>
      ⟨ux.getD (px.getD 0), uy.getD (py.getD 0), uz.getD (pz.getD 0)⟩

/-- Color constants of `MeasurementConfig` (their hex values live in the
external config; only their identity matters here), plus `engineDefault` for a
freshly created line whose color is never assigned. -/
inductive MColor where
  | engineDefault
  | colors_default
  | colors_hover
  | colors_delete
  | colors_point_default
deriving DecidableEq, Repr

/-- Which endpoint of a measurement a collider belongs to. -/
inductive PointType where
  | start
  | end'
deriving DecidableEq, Repr

/-- The `ActionStates` enum: None / Add / Remove. -/
inductive ActionStates where
  | None
  | Add
  | Remove
deriving DecidableEq, Repr

/-- State of one `MeasurementPlateObject`: the measurement data together with
the presence and color of its visual components.  `startColliderMetaId` and
`endColliderMetaId` model `collider.metadata.measurementId`. -/
structure Plate where
  measurement_instance_id : Int
  startPoint : Vec3
  endPoint : Vec3
  distanceMeasured : ℝ
  line : Bool
  textMesh : Bool
  startPointCollider : Bool
  endPointCollider : Bool
  lineColor : MColor
  startSphereColor : MColor
  endSphereColor : MColor
  startColliderMetaId : Option Int
  endColliderMetaId : Option Int

/-- `MeasurementPlateObject.ClearGUI()`: disposes the line, the text mesh and
both colliders. -/
def Plate.ClearGUI (p : Plate) : Plate :=
  { p with line := false, textMesh := false,
           startPointCollider := false, endPointCollider := false }

/-- `MeasurementPlateObject.InitPlate()` = `CreatePlate` + `CreateStartSphere`
+ `CreateEndSphere`: creates the dashed line (no color is assigned, so it keeps
the engine default), the distance text, and both collider spheres with the
point-default emissive color and metadata carrying this measurement's id. -/
def Plate.InitPlate (p : Plate) : Plate :=
  { p with line := true, lineColor := .engineDefault, textMesh := true,
           startPointCollider := true, startSphereColor := .colors_point_default,
           startColliderMetaId := some p.measurement_instance_id,
           endPointCollider := true, endSphereColor := .colors_point_default,
           endColliderMetaId := some p.measurement_instance_id }

/-- `MeasurementPlateObject.UpdateMeasurement(startPoint, endPoint)`: stores
the new points, recomputes `distanceMeasured` with `Vector3.Distance`, then
disposes and recreates all visuals (the same `CreatePlate` /
`CreateStartSphere` / `CreateEndSphere` calls as `InitPlate`). -/
noncomputable def Plate.UpdateMeasurement (p : Plate) (sp ep : Vec3) : Plate :=
  Plate.InitPlate
    { p with startPoint := sp, endPoint := ep, distanceMeasured := dist3 sp ep }

/-- Wire payload of `CreateMeasurement` / `UpdateMeasurement` messages:
`{ measurement_instance_id, startPoint, endPoint, distanceMeasured }`. -/
structure MeasurementMsg where
  measurement_instance_id : Int
  startPoint : WirePoint
  endPoint : WirePoint
  distanceMeasured : ℝ

/-- Outbound requests handed to `SocketHandler.SendData`, tagged by the
`CodeToServer` code used at each call site. -/
inductive OutMsg where
  | createReq (id : Int) (sp ep : Vec3) (dm : ℝ)
  | updateReq (id : Int) (sp ep : Vec3) (dm : ℝ)
  | deleteReq (id : Int)

/-- The `console.warn` / `console.error` emissions of the modelled code paths
(informational `console.log` calls are not tracked). -/
inductive WarnMsg where
  | warnNoMeasurementToDelete
  | warnDeleteUnknown (id : Int)
  | warnUpdateUnknown (id : Int)
  | errUpdateNotFound (id : Int)
  | errInvalidFormat
  | warnInvalidEntry
deriving DecidableEq, Repr

/-- The fields of `MeasureMenuController` relevant to the mode state machine
and the reconciliation protocol.  See the module docstring for the aliasing
convention behind `objects` / `ml` / `po` and for `outbox` / `warnings`. -/
structure CState where
  objects : Int → Option Plate
  ml : Int → Bool
  po : Int → Bool
  currentActionState : ActionStates
  startPoint : Option Vec3
  currentLine : Bool
  isDraggingMeasurement : Bool
  lastValidPickedPoint : Option Vec3
  pointerObserver : Bool
  beforeRenderObserver : Bool
  dynamicTextMesh : Bool
  isMovingPoint : Bool
  selectedMeasurementId : Int
  selectedPointType : Option PointType
  selectedPlateObject : Bool
  fixedPoint : Option Vec3
  movePreviewLine : Bool
  movePreviewText : Bool
  hoveredMeasurementId : Int
  hoveredPointType : Option PointType
  outbox : List OutMsg
  warnings : List WarnMsg

/-- `measurementsList.get k`. -/
def CState.getML (s : CState) (k : Int) : Option Plate :=
  if s.ml k then s.objects k else none

/-- `plateObjects.get k`. -/
def CState.getPO (s : CState) (k : Int) : Option Plate :=
  if s.po k then s.objects k else none

/-- Overwrite the shared object stored at key `k` (a mutation of the object
seen through every alias). -/
def CState.setObj (s : CState) (k : Int) (p : Plate) : CState :=
  { s with objects := fun j => if j = k then some p else s.objects j }

/-- `SendDeleteMeasurementRequestToServer(measurementId)`. -/
def SendDeleteMeasurementRequestToServer (s : CState) (id : Int) : CState :=
  { s with outbox := .deleteReq id :: s.outbox }

/-- `DeleteMeasurement(measurementId)`: a guard against the `-1` placeholder,
then the outbound delete request. -/
def DeleteMeasurement (s : CState) (id : Int) : CState :=
  if id = -1 then { s with warnings := .warnNoMeasurementToDelete :: s.warnings }
  else SendDeleteMeasurementRequestToServer s id

/-- The per-plate effect of `SetMeasurementColor`: recolor the line and both
sphere materials, each guarded on the component being present. -/
def Plate.applyMeasurementColor (p : Plate) (c : MColor) : Plate :=
  let p1 := if p.line then { p with lineColor := c } else p
  let p2 := if p1.startPointCollider then { p1 with startSphereColor := c } else p1
  if p2.endPointCollider then { p2 with endSphereColor := c } else p2

/-- `SetMeasurementColor(measurementId, colorHex)`. -/
def SetMeasurementColor (s : CState) (id : Int) (c : MColor) : CState :=
  match s.getPO id with
  | some p => s.setObj id (p.applyMeasurementColor c)
  | none => s

/-- `SetActionState(state)`: store the new action state and, unless the new
state is `Remove`, reset a pending hover highlight to the default color and
clear the hovered id.  (`UpdateActionButtonStates` only touches GUI buttons.) -/
def SetActionState (s : CState) (st : ActionStates) : CState :=
  let s1 : CState := { s with currentActionState := st }
  if st ≠ ActionStates.Remove ∧ s1.hoveredMeasurementId ≠ -1 then
    let s2 := SetMeasurementColor s1 s1.hoveredMeasurementId .colors_default
    { s2 with hoveredMeasurementId := -1 }
  else s1

/-- `ToggleDeleteMode()` (the keyboard path into and out of delete mode). -/
def ToggleDeleteMode (s : CState) : CState :=
  SetActionState s
    (if s.currentActionState = ActionStates.Remove then .None else .Remove)

/-- `ReceiveDeleteMeasurementRequestFromServer(deleteData)`. -/
def ReceiveDeleteMeasurementRequestFromServer (s : CState) (id : Int) : CState :=
  match s.getPO id with
  | none => { s with warnings := .warnDeleteUnknown id :: s.warnings }
  | some p =>
    let s1 := s.setObj id p.ClearGUI
    let s2 : CState :=
      { s1 with po := fun k => if k = id then false else s1.po k,
                ml := fun k => if k = id then false else s1.ml k }
    if s2.selectedMeasurementId = id then
      { s2 with movePreviewLine := false, movePreviewText := false,
                isMovingPoint := false, selectedPlateObject := false,
                selectedPointType := none, selectedMeasurementId := -1,
                fixedPoint := none }
    else s2

/-- `TryAddMeasurementObject(jsonData)`: ids already present in
`measurementsList` are ignored; otherwise the payload points are decoded
defensively, the received `distanceMeasured` is stored as-is, the plate is
built and initialized, and the same object is inserted into both maps. -/
def TryAddMeasurementObject (s : CState) (d : MeasurementMsg) : CState :=
  if s.ml d.measurement_instance_id then s
  else
    let plate : Plate :=
      Plate.InitPlate
        { measurement_instance_id := d.measurement_instance_id,
          startPoint := decodePoint d.startPoint,
          endPoint := decodePoint d.endPoint,
          distanceMeasured := d.distanceMeasured,
          line := false, textMesh := false,
          startPointCollider := false, endPointCollider := false,
          lineColor := .engineDefault, startSphereColor := .engineDefault,
          endSphereColor := .engineDefault,
          startColliderMetaId := none, endColliderMetaId := none }
    { s with
      objects := fun k => if k = d.measurement_instance_id then some plate else s.objects k,
      ml := fun k => if k = d.measurement_instance_id then true else s.ml k,
      po := fun k => if k = d.measurement_instance_id then true else s.po k }

/-- One step of the `forEach` in the inbound create handler: an entry is
forwarded to `TryAddMeasurementObject` iff it is present and its
`measurement_instance_id` is truthy (nonzero); otherwise it is rejected with a
warning. -/
def processCreateEntry (st : CState) (e : Option MeasurementMsg) : CState :=
  match e with
  | some d =>
      if d.measurement_instance_id ≠ 0 then TryAddMeasurementObject st d
      else { st with warnings := .warnInvalidEntry :: st.warnings }
  | none => { st with warnings := .warnInvalidEntry :: st.warnings }

/-- `ReceiveCreateNewMeasurementRequestFromServer(measureDataArray)`: `none`
models a non-array argument (rejected with `console.error`); an array is
processed entry by entry with `processCreateEntry`. -/
def ReceiveCreateNewMeasurementRequestFromServer
    (s : CState) (input : Option (List (Option MeasurementMsg))) : CState :=
  match input with
  | none => { s with warnings := .errInvalidFormat :: s.warnings }
  | some arr => arr.foldl processCreateEntry s

/-- `ReceiveUpdateMeasurementRequestFromServer(updateData)`: requires the id in
both maps (which alias one object), writes the decoded points and the received
distance onto the shared object, then `UpdateMeasurement` overwrites the
distance with the recomputed one and the collider metadata is refreshed. -/
noncomputable def ReceiveUpdateMeasurementRequestFromServer
    (s : CState) (u : MeasurementMsg) : CState :=
  match s.getPO u.measurement_instance_id, s.getML u.measurement_instance_id with
  | some p, some _ =>
    let sp := decodePoint u.startPoint
    let ep := decodePoint u.endPoint
    let p1 : Plate := { p with startPoint := sp, endPoint := ep,
                               distanceMeasured := u.distanceMeasured }
    let p2 := p1.UpdateMeasurement sp ep
    let p3 := if p2.startPointCollider then
                { p2 with startColliderMetaId := some u.measurement_instance_id }
              else p2
    let p4 := if p3.endPointCollider then
                { p3 with endColliderMetaId := some u.measurement_instance_id }
              else p3
    s.setObj u.measurement_instance_id p4
  | _, _ =>
    { s with warnings := .warnUpdateUnknown u.measurement_instance_id :: s.warnings }

/-- `UpdateExistingMeasurement(measurementId, newStartPoint, newEndPoint)`:
recompute the distance, apply the new data to the shared object (the
`measurementData` field assignments followed by `plateObject.UpdateMeasurement`
and the collider-metadata refresh), then send the update request. -/
noncomputable def UpdateExistingMeasurement
    (s : CState) (id : Int) (nsp nep : Vec3) : CState :=
  match s.getPO id, s.getML id with
  | some p, some _ =>
    let distance := dist3 nsp nep
    let p1 : Plate := { p with startPoint := nsp, endPoint := nep,
                               distanceMeasured := distance }
    let p2 := p1.UpdateMeasurement nsp nep
    let p3 := if p2.startPointCollider then { p2 with startColliderMetaId := some id } else p2
    let p4 := if p3.endPointCollider then { p3 with endColliderMetaId := some id } else p3
    let s1 := s.setObj id p4
    { s1 with outbox := .updateReq id nsp nep distance :: s1.outbox }
  | _, _ => { s with warnings := .errUpdateNotFound id :: s.warnings }

/-- `CompleteMove(finalPosition)`: guarded on an active selection, build the
new endpoint pair from the moved point and the fixed one, apply and send it via
`UpdateExistingMeasurement`, then clear the preview and the move state. -/
noncomputable def CompleteMove (s : CState) (finalPosition : Vec3) : CState :=
  match s.selectedPlateObject, s.selectedPointType, s.fixedPoint with
  | true, some pt, some fp =>
    let nsp := if pt = PointType.start then finalPosition else fp
    let nep := if pt = PointType.start then fp else finalPosition
    let s1 := UpdateExistingMeasurement s s.selectedMeasurementId nsp nep
    { s1 with movePreviewLine := false, movePreviewText := false,
              isMovingPoint := false, selectedPlateObject := false,
              selectedPointType := none, selectedMeasurementId := -1,
              fixedPoint := none }
  | _, _, _ => s

/-- `CancelMoveOperation()`: restore the original visuals of the selected
plate (`InitPlate` on the aliased object), clear the preview and the move
state. -/
def CancelMoveOperation (s : CState) : CState :=
  if s.selectedPlateObject then
    let s1 :=
      match s.objects s.selectedMeasurementId with
      | some p => s.setObj s.selectedMeasurementId p.InitPlate
      | none => s
    { s1 with movePreviewLine := false, movePreviewText := false,
              isMovingPoint := false, selectedPlateObject := false,
              selectedPointType := none, selectedMeasurementId := -1,
              fixedPoint := none }
  else s

/-- `CompleteMeasurement(endPoint)`: compute the distance from the remembered
start point, send the create request with placeholder id `-1`, dispose the
preview line and text, and reset the drag state.  (On a null `startPoint` the
source would throw; the sole caller guards on it, so that branch is modelled as
unreachable identity.) -/
noncomputable def CompleteMeasurement (s : CState) (endPoint : Vec3) : CState :=
  match s.startPoint with
  | none => s
  | some sp =>
    { s with outbox := .createReq (-1) sp endPoint (dist3 sp endPoint) :: s.outbox,
             selectedMeasurementId := -1,
             currentLine := false, dynamicTextMesh := false,
             startPoint := none }

/-- `CancelMeasurementCreation()`: dispose the preview line and text and
forget the start point. -/
def CancelMeasurementCreation (s : CState) : CState :=
  { s with currentLine := false, dynamicTextMesh := false, startPoint := none }

/-- The pointer event data read by the handlers: whether the pointer is a
mouse, and which button fired. -/
structure PEvent where
  pointerTypeMouse : Bool
  button : Int
deriving DecidableEq, Repr

/-- A picking result: whether the ray hit, and the picked point if any. -/
structure PickResult where
  hit : Bool
  pickedPoint : Option Vec3
deriving DecidableEq, Repr

/-- The clamping policy `(pickResult.hit && pickResult.pickedPoint) ?
pickResult.pickedPoint : this.lastValidPickedPoint`. -/
def pointToUse (pick : PickResult) (lastValid : Option Vec3) : Option Vec3 :=
  if pick.hit && pick.pickedPoint.isSome then pick.pickedPoint else lastValid

/-- `HandlePointerUp(pointerInfo)` with the scene pick passed explicitly:
ignore non-left mouse buttons; finish or cancel an active point move, else
finish or cancel an active create drag. -/
noncomputable def HandlePointerUp (s : CState) (ev : PEvent) (pick : PickResult) : CState :=
  if ev.pointerTypeMouse ∧ ev.button ≠ 0 then s
  else if s.isMovingPoint ∧ s.selectedPlateObject ∧ s.selectedPointType.isSome then
    match pointToUse pick s.lastValidPickedPoint with
    | some p => CompleteMove s p
    | none => CancelMoveOperation s
  else if s.isDraggingMeasurement ∧ s.startPoint.isSome then
    let s1 :=
      match pointToUse pick s.lastValidPickedPoint with
      | some p => CompleteMeasurement s p
      | none => CancelMeasurementCreation s
    { s1 with isDraggingMeasurement := false }
  else s

/-- `DisableMeasuring()`: remove the observers, drop back to the `None` action
state, and dispose any in-flight creation preview. -/
def DisableMeasuring (s : CState) : CState :=
  let s1 : CState := { s with pointerObserver := false, beforeRenderObserver := false }
  let s2 := if s1.currentActionState ≠ ActionStates.None
            then SetActionState s1 ActionStates.None else s1
  { s2 with startPoint := none, isDraggingMeasurement := false,
            currentLine := false, dynamicTextMesh := false }

/-- The keys the `onKeyDown` handler distinguishes. -/
inductive MKey where
  | escape
  | xKey
  | other
deriving DecidableEq, Repr

/-- The `onKeyDown` closure registered by `EnableMeasuring`: `Escape` leaves
the current action state or the whole tool; `x`/`X` while moving a point
cancels the move and deletes the moved measurement, otherwise it toggles
delete mode. -/
def EnableMeasuringOnKeyDown (s : CState) (k : MKey) : CState :=
  match k with
  | .escape =>
    if s.currentActionState ≠ ActionStates.None then SetActionState s ActionStates.None
    else DisableMeasuring s
  | .xKey =>
    if s.isMovingPoint ∧ s.selectedMeasurementId ≠ -1 then
      let s1 : CState :=
        { s with movePreviewLine := false, movePreviewText := false,
                 isMovingPoint := false, selectedPlateObject := false,
                 selectedPointType := none, fixedPoint := none }
      let s2 := DeleteMeasurement s1 s1.selectedMeasurementId
      { s2 with selectedMeasurementId := -1 }
    else ToggleDeleteMode s
  | .other => s

/-! ### Concrete data used by counterexamples and witnesses -/

def v000 : Vec3 := ⟨0, 0, 0⟩

def v111 : Vec3 := ⟨1, 1, 1⟩

def v340 : Vec3 := ⟨3, 4, 0⟩

def v700 : Vec3 := ⟨7, 0, 0⟩

/-- A freshly initialized controller: empty maps, no interaction in progress
(the selection and hover ids start at `-1`), observers registered. -/
def state0 : CState :=
  { objects := fun _ => none, ml := fun _ => false, po := fun _ => false,
    currentActionState := .None, startPoint := none, currentLine := false,
    isDraggingMeasurement := false, lastValidPickedPoint := none,
    pointerObserver := true, beforeRenderObserver := true,
    dynamicTextMesh := false, isMovingPoint := false,
    selectedMeasurementId := -1, selectedPointType := none,
    selectedPlateObject := false, fixedPoint := none,
    movePreviewLine := false, movePreviewText := false,
    hoveredMeasurementId := -1, hoveredPointType := none,
    outbox := [], warnings := [] }

/-- A confirmed plate for measurement 1 between `v000` and `v111`, with its
visuals present, as produced by `InitPlate`. -/
def plate1 : Plate :=
  { measurement_instance_id := 1, startPoint := v000, endPoint := v111,
    distanceMeasured := 2, line := true, textMesh := true,
    startPointCollider := true, endPointCollider := true,
    lineColor := .engineDefault, startSphereColor := .colors_point_default,
    endSphereColor := .colors_point_default,
    startColliderMetaId := some 1, endColliderMetaId := some 1 }

/-- A registry holding exactly measurement 1. -/
def stateWith1 : CState :=
  { state0 with objects := fun k => if k = 1 then some plate1 else none,
                ml := fun k => k == 1, po := fun k => k == 1 }

/-- Measurement 1 mid-move: the start point of measurement 1 is being dragged,
so the end point `v111` is fixed and a preview line exists. -/
def stateMove1 : CState :=
  { stateWith1 with isMovingPoint := true, selectedPlateObject := true,
                    selectedPointType := some .start, selectedMeasurementId := 1,
                    fixedPoint := some v111, movePreviewLine := true }

/-- Measurement 1 mid-move after `StartMovingPoint`, whose `ClearGUI` call has
hidden the original visuals of the plate. -/
def stateMove1Cleared : CState :=
  { stateMove1 with objects := fun k => if k = 1 then some plate1.ClearGUI else none }

/-- An update broadcast for measurement 1 carrying a distance value (777) that
does not match its points. -/
def updMsg1 : MeasurementMsg :=
  { measurement_instance_id := 1, startPoint := .vec v340, endPoint := .vec v000,
    distanceMeasured := 777 }

/-- A create broadcast whose claimed distance (999) disagrees with the
Euclidean distance (5) of its endpoints `v000` and `v340`. -/
def badCreateMsg : MeasurementMsg :=
  { measurement_instance_id := 5, startPoint := .vec v000, endPoint := .vec v340,
    distanceMeasured := 999 }

/-- A create broadcast carrying the reserved sentinel id `-1`. -/
def sentinelMsg : MeasurementMsg :=
  { measurement_instance_id := -1, startPoint := .vec v000, endPoint := .vec v111,
    distanceMeasured := 2 }

/-- A well-formed create broadcast for measurement 7. -/
def okCreateMsg7 : MeasurementMsg :=
  { measurement_instance_id := 7, startPoint := .vec v000, endPoint := .vec v340,
    distanceMeasured := 5 }

/-- A create broadcast whose id is the falsy value 0. -/
def zeroIdMsg : MeasurementMsg :=
  { measurement_instance_id := 0, startPoint := .vec v000, endPoint := .vec v111,
    distanceMeasured := 2 }

/-- A duplicate create broadcast for the already-present measurement 1. -/
def dupCreateMsg1 : MeasurementMsg :=
  { measurement_instance_id := 1, startPoint := .vec v000, endPoint := .vec v111,
    distanceMeasured := 2 }

/-- An update broadcast for the absent measurement 42. -/
def updMsg42 : MeasurementMsg :=
  { measurement_instance_id := 42, startPoint := .vec v000, endPoint := .vec v111,
    distanceMeasured := 2 }

/-- Mid-drag state of a create drag in `Add` mode: the drag flag is up, the
start point `v000` is remembered and the preview line exists. -/
def stateDrag : CState :=
  { state0 with currentActionState := .Add, isDraggingMeasurement := true,
                startPoint := some v000, currentLine := true }

/-- A left-button mouse event. -/
def evLeftMouse : PEvent := ⟨true, 0⟩

/-- A pick that hit the surface at `v340`. -/
def pickAt340 : PickResult := ⟨true, some v340⟩

/-- A plate for measurement 2 currently shown with the hover highlight. -/
def plateHover2 : Plate :=
  { plate1 with measurement_instance_id := 2, lineColor := .colors_hover,
                startSphereColor := .colors_hover,
                startColliderMetaId := some 2, endColliderMetaId := some 2 }

/-- A registry holding measurement 2 while the cursor hovers its start
point. -/
def stateHover2 : CState :=
  { state0 with objects := fun k => if k = 2 then some plateHover2 else none,
                ml := fun k => k == 2, po := fun k => k == 2,
                hoveredMeasurementId := 2, hoveredPointType := some .start }

/-! ### Helper lemmas -/

theorem getML_eq_some {s : CState} {k : Int} {p : Plate}
    (h : s.getML k = some p) : s.ml k = true ∧ s.objects k = some p := by
  unfold CState.getML at h
  split at h
  · exact ⟨by assumption, h⟩
  · exact absurd h (by simp)

theorem getPO_eq_some {s : CState} {k : Int} {p : Plate}
    (h : s.getPO k = some p) : s.po k = true ∧ s.objects k = some p := by
  unfold CState.getPO at h
  split at h
  · exact ⟨by assumption, h⟩
  · exact absurd h (by simp)

theorem tryAdd_of_mem {s : CState} {d : MeasurementMsg}
    (h : s.ml d.measurement_instance_id = true) :
    TryAddMeasurementObject s d = s := by
  unfold TryAddMeasurementObject
  simp [h]

theorem tryAdd_mem (s : CState) (d : MeasurementMsg) :
    (TryAddMeasurementObject s d).ml d.measurement_instance_id = true := by
  unfold TryAddMeasurementObject
  split
  · assumption
  · simp

theorem tryAdd_ml_other {s : CState} {d : MeasurementMsg} {k : Int}
    (h : k ≠ d.measurement_instance_id) :
    (TryAddMeasurementObject s d).ml k = s.ml k := by
  unfold TryAddMeasurementObject
  split
  · rfl
  · simp [h]

theorem dist3_v000_v340 : dist3 v000 v340 = 5 := by
  have h : ((sqDist v000 v340 : ℚ) : ℝ) = (5 : ℝ) ^ 2 := by
    norm_num [sqDist, v000, v340]
  rw [dist3, h, Real.sqrt_sq]
  norm_num

/-! ### Claim theorems -/

/-- Claim C3: while a point-move is in progress on entity `N`, receiving a
server delete broadcast for `N` removes entity `N` from both registry maps,
clears the `MovingPoint` flag and every piece of move-selection state, and
discards the move preview. -/
theorem C3_delete_cancels_inflight_move (s : CState) (N : Int) (p : Plate)
    (_hmv : s.isMovingPoint = true) (hsel : s.selectedMeasurementId = N)
    (hpo : s.getPO N = some p) :
    (ReceiveDeleteMeasurementRequestFromServer s N).getML N = none ∧
    (ReceiveDeleteMeasurementRequestFromServer s N).getPO N = none ∧
    (ReceiveDeleteMeasurementRequestFromServer s N).isMovingPoint = false ∧
    (ReceiveDeleteMeasurementRequestFromServer s N).selectedPlateObject = false ∧
    (ReceiveDeleteMeasurementRequestFromServer s N).selectedPointType = none ∧
    (ReceiveDeleteMeasurementRequestFromServer s N).selectedMeasurementId = -1 ∧
    (ReceiveDeleteMeasurementRequestFromServer s N).fixedPoint = none ∧
    (ReceiveDeleteMeasurementRequestFromServer s N).movePreviewLine = false ∧
    (ReceiveDeleteMeasurementRequestFromServer s N).movePreviewText = false := by
  unfold ReceiveDeleteMeasurementRequestFromServer
  rw [hpo]
  simp [CState.setObj, CState.getML, CState.getPO, hsel]

/-- Witness for C3 at the concrete mid-move state on measurement 1. -/
theorem C3_delete_cancels_inflight_move_witness :
    (ReceiveDeleteMeasurementRequestFromServer stateMove1 1).getML 1 = none ∧
    (ReceiveDeleteMeasurementRequestFromServer stateMove1 1).getPO 1 = none ∧
    (ReceiveDeleteMeasurementRequestFromServer stateMove1 1).isMovingPoint = false ∧
    (ReceiveDeleteMeasurementRequestFromServer stateMove1 1).selectedPlateObject = false ∧
    (ReceiveDeleteMeasurementRequestFromServer stateMove1 1).selectedPointType = none ∧
    (ReceiveDeleteMeasurementRequestFromServer stateMove1 1).selectedMeasurementId = -1 ∧
    (ReceiveDeleteMeasurementRequestFromServer stateMove1 1).fixedPoint = none ∧
    (ReceiveDeleteMeasurementRequestFromServer stateMove1 1).movePreviewLine = false ∧
    (ReceiveDeleteMeasurementRequestFromServer stateMove1 1).movePreviewText = false :=
  C3_delete_cancels_inflight_move stateMove1 1 plate1 rfl rfl rfl

/-- Claim C4: the inbound create handler is idempotent: a payload whose id is
already a key of the registry leaves the state exactly unchanged, invoking the
handler twice equals invoking it once, and afterwards the id is a key. -/
theorem C4_create_idempotent (s : CState) (d : MeasurementMsg) :
    (s.ml d.measurement_instance_id = true → TryAddMeasurementObject s d = s) ∧
    TryAddMeasurementObject (TryAddMeasurementObject s d) d
      = TryAddMeasurementObject s d ∧
    (TryAddMeasurementObject s d).ml d.measurement_instance_id = true :=
  ⟨fun h => tryAdd_of_mem h, tryAdd_of_mem (tryAdd_mem s d), tryAdd_mem s d⟩

/-- Witness for C4: a duplicate create for the present measurement 1. -/
theorem C4_create_idempotent_witness :
    TryAddMeasurementObject stateWith1 dupCreateMsg1 = stateWith1 ∧
    TryAddMeasurementObject (TryAddMeasurementObject stateWith1 dupCreateMsg1) dupCreateMsg1
      = TryAddMeasurementObject stateWith1 dupCreateMsg1 ∧
    (TryAddMeasurementObject stateWith1 dupCreateMsg1).ml dupCreateMsg1.measurement_instance_id
      = true :=
  ⟨(C4_create_idempotent stateWith1 dupCreateMsg1).1 rfl,
   (C4_create_idempotent stateWith1 dupCreateMsg1).2.1,
   (C4_create_idempotent stateWith1 dupCreateMsg1).2.2⟩

/-- Claim C5: for an id absent from the registry, the inbound delete handler
and the inbound update handler leave the whole state unchanged except for one
emitted warning (both are total functions, so neither raises). -/
theorem C5_absent_id_ignored (s : CState) (id : Int) (u : MeasurementMsg)
    (_hml : s.getML id = none) (hpo : s.getPO id = none)
    (hu : u.measurement_instance_id = id) :
    ReceiveDeleteMeasurementRequestFromServer s id
      = { s with warnings := .warnDeleteUnknown id :: s.warnings } ∧
    ReceiveUpdateMeasurementRequestFromServer s u
      = { s with warnings := .warnUpdateUnknown id :: s.warnings } := by
  constructor
  · unfold ReceiveDeleteMeasurementRequestFromServer
    rw [hpo]
  · unfold ReceiveUpdateMeasurementRequestFromServer
    rw [hu, hpo]

/-- Witness for C5: deleting and updating the absent measurement 42. -/
theorem C5_absent_id_ignored_witness :
    ReceiveDeleteMeasurementRequestFromServer stateWith1 42
      = { stateWith1 with warnings := [.warnDeleteUnknown 42] } ∧
    ReceiveUpdateMeasurementRequestFromServer stateWith1 updMsg42
      = { stateWith1 with warnings := [.warnUpdateUnknown 42] } :=
  C5_absent_id_ignored stateWith1 42 updMsg42 rfl rfl rfl

/-- Claim C1 counterexample: the inbound create handler stores the received
`distanceMeasured` (999) unverified, although the Euclidean distance between
the stored points `v000` and `v340` is 5, so after a create broadcast the
stored distance need not equal the Euclidean distance of the stored points. -/
theorem C1_counterexample :
    ((TryAddMeasurementObject state0 badCreateMsg).getML 5).map Plate.distanceMeasured
      = some 999 ∧
    ((TryAddMeasurementObject state0 badCreateMsg).getML 5).map Plate.startPoint
      = some v000 ∧
    ((TryAddMeasurementObject state0 badCreateMsg).getML 5).map Plate.endPoint
      = some v340 ∧
    dist3 v000 v340 = 5 ∧ (999 : ℝ) ≠ 5 := by
  refine ⟨?_, ?_, ?_, dist3_v000_v340, by norm_num⟩ <;>
    simp [TryAddMeasurementObject, state0, badCreateMsg, CState.getML,
          Plate.InitPlate, decodePoint]

/-- Claim C1 (amended): the inbound update handler does recompute the distance
from the received points — after `ReceiveUpdateMeasurementRequestFromServer`
the stored entity carries the decoded points and the recomputed Euclidean
distance, not the received `distanceMeasured`; the create handler stores the
received value unverified. -/
theorem C1_update_recomputes_distance (s : CState) (u : MeasurementMsg)
    (pP pM : Plate)
    (hpo : s.getPO u.measurement_instance_id = some pP)
    (hml : s.getML u.measurement_instance_id = some pM) :
    ((ReceiveUpdateMeasurementRequestFromServer s u).getML u.measurement_instance_id).map
        Plate.distanceMeasured
      = some (dist3 (decodePoint u.startPoint) (decodePoint u.endPoint)) ∧
    ((ReceiveUpdateMeasurementRequestFromServer s u).getML u.measurement_instance_id).map
        Plate.startPoint = some (decodePoint u.startPoint) ∧
    ((ReceiveUpdateMeasurementRequestFromServer s u).getML u.measurement_instance_id).map
        Plate.endPoint = some (decodePoint u.endPoint) := by
  obtain ⟨hml1, _⟩ := getML_eq_some hml
  unfold ReceiveUpdateMeasurementRequestFromServer
  rw [hpo, hml]
  simp [Plate.UpdateMeasurement, Plate.InitPlate, CState.setObj, CState.getML, hml1]

/-- Witness for C1's amended theorem: an update broadcast for measurement 1
whose received distance 777 is discarded in favour of the recomputed one. -/
theorem C1_update_recomputes_distance_witness :
    ((ReceiveUpdateMeasurementRequestFromServer stateWith1 updMsg1).getML
        updMsg1.measurement_instance_id).map Plate.distanceMeasured
      = some (dist3 (decodePoint updMsg1.startPoint) (decodePoint updMsg1.endPoint)) ∧
    ((ReceiveUpdateMeasurementRequestFromServer stateWith1 updMsg1).getML
        updMsg1.measurement_instance_id).map Plate.startPoint
      = some (decodePoint updMsg1.startPoint) ∧
    ((ReceiveUpdateMeasurementRequestFromServer stateWith1 updMsg1).getML
        updMsg1.measurement_instance_id).map Plate.endPoint
      = some (decodePoint updMsg1.endPoint) :=
  C1_update_recomputes_distance stateWith1 updMsg1 plate1 plate1 rfl rfl

/-- Claim C2 counterexample: completing a point-move mutates the stored entity
before any server broadcast is received — `CompleteMove` changes the stored
`startPoint` of measurement 1 from `v000` to `v700` and only then queues the
outbound update request. -/
theorem C2_counterexample :
    ((CompleteMove stateMove1 v700).getML 1).map Plate.startPoint = some v700 ∧
    (stateMove1.getML 1).map Plate.startPoint = some v000 ∧
    v700 ≠ v000 ∧
    (CompleteMove stateMove1 v700).outbox
      = [OutMsg.updateReq 1 v700 v111 (dist3 v700 v111)] := by
  refine ⟨?_, ?_, by decide, ?_⟩ <;>
    simp [CompleteMove, UpdateExistingMeasurement, stateMove1, stateWith1, state0,
          CState.getPO, CState.getML, CState.setObj, Plate.UpdateMeasurement,
          Plate.InitPlate, plate1]

/-- Claim C2 (amended): sending a create or a delete request leaves the
registry unchanged, but completing a point-move applies the update locally
(optimistic apply): `UpdateExistingMeasurement` stores the new points and the
recomputed distance on the entity and then sends the update request. -/
theorem C2_send_effects (s : CState) :
    (∀ p ep, s.startPoint = some p →
       (CompleteMeasurement s ep).ml = s.ml ∧
       (CompleteMeasurement s ep).po = s.po ∧
       (CompleteMeasurement s ep).objects = s.objects ∧
       (CompleteMeasurement s ep).outbox
         = .createReq (-1) p ep (dist3 p ep) :: s.outbox) ∧
    (∀ id, (DeleteMeasurement s id).ml = s.ml ∧
           (DeleteMeasurement s id).po = s.po ∧
           (DeleteMeasurement s id).objects = s.objects) ∧
    (∀ id nsp nep pP pM, s.getPO id = some pP → s.getML id = some pM →
       ((UpdateExistingMeasurement s id nsp nep).getML id).map Plate.startPoint
         = some nsp ∧
       ((UpdateExistingMeasurement s id nsp nep).getML id).map Plate.endPoint
         = some nep ∧
       ((UpdateExistingMeasurement s id nsp nep).getML id).map Plate.distanceMeasured
         = some (dist3 nsp nep) ∧
       (UpdateExistingMeasurement s id nsp nep).outbox
         = .updateReq id nsp nep (dist3 nsp nep) :: s.outbox) := by
  refine ⟨?_, ?_, ?_⟩
  · intro p ep h
    unfold CompleteMeasurement
    rw [h]
    simp
  · intro id
    unfold DeleteMeasurement SendDeleteMeasurementRequestToServer
    split <;> simp
  · intro id nsp nep pP pM hpo hml
    obtain ⟨hml1, _⟩ := getML_eq_some hml
    unfold UpdateExistingMeasurement
    rw [hpo, hml]
    simp [Plate.UpdateMeasurement, Plate.InitPlate, CState.setObj, CState.getML, hml1]

/-- Witness for C2's amended theorem: a create send from the mid-drag state, a
delete send and a point-move update on measurement 1. -/
theorem C2_send_effects_witness :
    ((CompleteMeasurement stateDrag v340).ml = stateDrag.ml ∧
     (CompleteMeasurement stateDrag v340).po = stateDrag.po ∧
     (CompleteMeasurement stateDrag v340).objects = stateDrag.objects ∧
     (CompleteMeasurement stateDrag v340).outbox
       = .createReq (-1) v000 v340 (dist3 v000 v340) :: stateDrag.outbox) ∧
    ((DeleteMeasurement stateWith1 1).ml = stateWith1.ml ∧
     (DeleteMeasurement stateWith1 1).po = stateWith1.po ∧
     (DeleteMeasurement stateWith1 1).objects = stateWith1.objects) ∧
    (((UpdateExistingMeasurement stateWith1 1 v700 v111).getML 1).map Plate.startPoint
       = some v700 ∧
     ((UpdateExistingMeasurement stateWith1 1 v700 v111).getML 1).map Plate.endPoint
       = some v111 ∧
     ((UpdateExistingMeasurement stateWith1 1 v700 v111).getML 1).map Plate.distanceMeasured
       = some (dist3 v700 v111) ∧
     (UpdateExistingMeasurement stateWith1 1 v700 v111).outbox
       = .updateReq 1 v700 v111 (dist3 v700 v111) :: stateWith1.outbox) :=
  ⟨(C2_send_effects stateDrag).1 v000 v340 rfl,
   (C2_send_effects stateWith1).2.1 1,
   (C2_send_effects stateWith1).2.2 1 v700 v111 plate1 plate1 rfl rfl⟩

theorem updateExisting_preserves_maps (s : CState) (id : Int) (nsp nep : Vec3) :
    (UpdateExistingMeasurement s id nsp nep).ml = s.ml ∧
    (UpdateExistingMeasurement s id nsp nep).po = s.po := by
  unfold UpdateExistingMeasurement
  split <;> exact ⟨rfl, rfl⟩

theorem completeMove_preserves_maps (s : CState) (v : Vec3) :
    (CompleteMove s v).ml = s.ml ∧ (CompleteMove s v).po = s.po := by
  unfold CompleteMove
  split
  · exact ⟨(updateExisting_preserves_maps s s.selectedMeasurementId _ _).1,
           (updateExisting_preserves_maps s s.selectedMeasurementId _ _).2⟩
  · exact ⟨rfl, rfl⟩

theorem cancelMove_preserves_maps (s : CState) :
    (CancelMoveOperation s).ml = s.ml ∧ (CancelMoveOperation s).po = s.po := by
  unfold CancelMoveOperation
  split
  · split <;> exact ⟨rfl, rfl⟩
  · exact ⟨rfl, rfl⟩

theorem completeMeasurement_preserves_maps (s : CState) (v : Vec3) :
    (CompleteMeasurement s v).ml = s.ml ∧ (CompleteMeasurement s v).po = s.po := by
  unfold CompleteMeasurement
  split <;> exact ⟨rfl, rfl⟩

theorem handlePointerUp_preserves_maps (s : CState) (ev : PEvent) (pick : PickResult) :
    (HandlePointerUp s ev pick).ml = s.ml ∧ (HandlePointerUp s ev pick).po = s.po := by
  unfold HandlePointerUp
  split
  · exact ⟨rfl, rfl⟩
  split
  · split
    · exact completeMove_preserves_maps s _
    · exact cancelMove_preserves_maps s
  split
  · split
    · exact completeMeasurement_preserves_maps s _
    · exact ⟨rfl, rfl⟩
  · exact ⟨rfl, rfl⟩

theorem setActionState_fields (s : CState) (st : ActionStates) :
    (SetActionState s st).currentActionState = st ∧
    (SetActionState s st).isDraggingMeasurement = s.isDraggingMeasurement ∧
    (SetActionState s st).startPoint = s.startPoint ∧
    (SetActionState s st).currentLine = s.currentLine ∧
    (SetActionState s st).ml = s.ml ∧
    (SetActionState s st).po = s.po ∧
    (SetActionState s st).isMovingPoint = s.isMovingPoint ∧
    (SetActionState s st).selectedMeasurementId = s.selectedMeasurementId ∧
    (SetActionState s st).outbox = s.outbox := by
  unfold SetActionState SetMeasurementColor
  refine ⟨?_, ?_, ?_, ?_, ?_, ?_, ?_, ?_, ?_⟩
  all_goals
    dsimp only
    split
    · split <;> rfl
    · rfl

/-- Claim C6 counterexample: pressing Escape mid-drag (primary mode `Add`)
moves the primary mode to `Idle` but leaves the drag flag, the remembered
start point and the preview line in place, and the next left-button PointerUp
of that drag still emits a Create request. -/
theorem C6_counterexample :
    (EnableMeasuringOnKeyDown stateDrag .escape).currentActionState
      = ActionStates.None ∧
    (EnableMeasuringOnKeyDown stateDrag .escape).isDraggingMeasurement = true ∧
    (EnableMeasuringOnKeyDown stateDrag .escape).startPoint = some v000 ∧
    (EnableMeasuringOnKeyDown stateDrag .escape).currentLine = true ∧
    (HandlePointerUp (EnableMeasuringOnKeyDown stateDrag .escape)
        evLeftMouse pickAt340).outbox
      = [OutMsg.createReq (-1) v000 v340 (dist3 v000 v340)] :=
  ⟨rfl, rfl, rfl, rfl, rfl⟩

/-- Claim C6 (amended): Escape with primary mode not `Idle` transitions the
mode to `Idle` without touching the registry, but does not cancel an in-flight
create-drag: the drag flag, start point and preview line are all unchanged,
and no later PointerUp ever inserts anything into the registry (PointerUp only
emits requests; the registry key sets are untouched). -/
theorem C6_escape_does_not_cancel_drag (s : CState)
    (h : s.currentActionState ≠ ActionStates.None) :
    (EnableMeasuringOnKeyDown s .escape).currentActionState = ActionStates.None ∧
    (EnableMeasuringOnKeyDown s .escape).isDraggingMeasurement
      = s.isDraggingMeasurement ∧
    (EnableMeasuringOnKeyDown s .escape).startPoint = s.startPoint ∧
    (EnableMeasuringOnKeyDown s .escape).currentLine = s.currentLine ∧
    (EnableMeasuringOnKeyDown s .escape).ml = s.ml ∧
    (EnableMeasuringOnKeyDown s .escape).po = s.po ∧
    (∀ ev pick,
       (HandlePointerUp (EnableMeasuringOnKeyDown s .escape) ev pick).ml = s.ml ∧
       (HandlePointerUp (EnableMeasuringOnKeyDown s .escape) ev pick).po = s.po) := by
  have he : EnableMeasuringOnKeyDown s .escape = SetActionState s ActionStates.None := by
    unfold EnableMeasuringOnKeyDown
    rw [if_pos h]
  obtain ⟨f1, f2, f3, f4, f5, f6, _, _, _⟩ := setActionState_fields s ActionStates.None
  refine ⟨he ▸ f1, he ▸ f2, he ▸ f3, he ▸ f4, he ▸ f5, he ▸ f6, ?_⟩
  intro ev pick
  obtain ⟨g1, g2⟩ :=
    handlePointerUp_preserves_maps (EnableMeasuringOnKeyDown s .escape) ev pick
  rw [g1, g2, he, f5, f6]
  exact ⟨rfl, rfl⟩

/-- Witness for C6's amended theorem at the concrete mid-drag state. -/
theorem C6_escape_does_not_cancel_drag_witness :
    (EnableMeasuringOnKeyDown stateDrag .escape).currentActionState
      = ActionStates.None ∧
    (EnableMeasuringOnKeyDown stateDrag .escape).isDraggingMeasurement
      = stateDrag.isDraggingMeasurement ∧
    (EnableMeasuringOnKeyDown stateDrag .escape).startPoint = stateDrag.startPoint ∧
    (EnableMeasuringOnKeyDown stateDrag .escape).currentLine = stateDrag.currentLine ∧
    (EnableMeasuringOnKeyDown stateDrag .escape).ml = stateDrag.ml ∧
    (EnableMeasuringOnKeyDown stateDrag .escape).po = stateDrag.po ∧
    (HandlePointerUp (EnableMeasuringOnKeyDown stateDrag .escape)
        evLeftMouse pickAt340).ml = stateDrag.ml ∧
    (HandlePointerUp (EnableMeasuringOnKeyDown stateDrag .escape)
        evLeftMouse pickAt340).po = stateDrag.po :=
  ⟨(C6_escape_does_not_cancel_drag stateDrag (by decide)).1,
   (C6_escape_does_not_cancel_drag stateDrag (by decide)).2.1,
   (C6_escape_does_not_cancel_drag stateDrag (by decide)).2.2.1,
   (C6_escape_does_not_cancel_drag stateDrag (by decide)).2.2.2.1,
   (C6_escape_does_not_cancel_drag stateDrag (by decide)).2.2.2.2.1,
   (C6_escape_does_not_cancel_drag stateDrag (by decide)).2.2.2.2.2.1,
   ((C6_escape_does_not_cancel_drag stateDrag (by decide)).2.2.2.2.2.2
      evLeftMouse pickAt340).1,
   ((C6_escape_does_not_cancel_drag stateDrag (by decide)).2.2.2.2.2.2
      evLeftMouse pickAt340).2⟩

/-- Claim C7 counterexample: the inbound create path does accept the sentinel:
a broadcast entry with `measurement_instance_id = -1` passes the truthiness
check and is inserted under key `-1` in both registry maps. -/
theorem C7_counterexample :
    ((ReceiveCreateNewMeasurementRequestFromServer state0
        (some [some sentinelMsg])).getML (-1)).isSome = true ∧
    ((ReceiveCreateNewMeasurementRequestFromServer state0
        (some [some sentinelMsg])).getPO (-1)).isSome = true :=
  ⟨rfl, rfl⟩

/-- Claim C7 (amended): a locally created measurement is sent with placeholder
id `-1` and nothing is inserted locally by `CompleteMeasurement`; however the
inbound create path does not reject the sentinel — a broadcast entry with id
`-1` is truthy and gets inserted under key `-1`, so the invariant rests on the
server never broadcasting id `-1`. -/
theorem C7_sentinel_handling (s : CState) :
    (∀ p ep, s.startPoint = some p →
       (CompleteMeasurement s ep).outbox
         = .createReq (-1) p ep (dist3 p ep) :: s.outbox ∧
       (CompleteMeasurement s ep).ml = s.ml ∧
       (CompleteMeasurement s ep).po = s.po ∧
       (CompleteMeasurement s ep).objects = s.objects) ∧
    (∀ d : MeasurementMsg, d.measurement_instance_id = -1 → s.ml (-1) = false →
       (ReceiveCreateNewMeasurementRequestFromServer s (some [some d])).ml (-1)
         = true) := by
  constructor
  · intro p ep h
    unfold CompleteMeasurement
    rw [h]
    exact ⟨rfl, rfl, rfl, rfl⟩
  · intro d hd hml
    have h0 : d.measurement_instance_id ≠ 0 := by rw [hd]; decide
    unfold ReceiveCreateNewMeasurementRequestFromServer
    simp only [List.foldl, processCreateEntry, if_pos h0]
    unfold TryAddMeasurementObject
    rw [hd, hml]
    simp

/-- Witness for C7's amended theorem: the create send from the mid-drag state
and the sentinel broadcast into the empty registry. -/
theorem C7_sentinel_handling_witness :
    ((CompleteMeasurement stateDrag v111).outbox
       = .createReq (-1) v000 v111 (dist3 v000 v111) :: stateDrag.outbox ∧
     (CompleteMeasurement stateDrag v111).ml = stateDrag.ml ∧
     (CompleteMeasurement stateDrag v111).po = stateDrag.po ∧
     (CompleteMeasurement stateDrag v111).objects = stateDrag.objects) ∧
    (ReceiveCreateNewMeasurementRequestFromServer state0
        (some [some sentinelMsg])).ml (-1) = true :=
  ⟨(C7_sentinel_handling stateDrag).1 v000 v111 rfl,
   (C7_sentinel_handling state0).2 sentinelMsg rfl rfl⟩

/-- Claim C8 counterexample: pressing `X` while moving a point of measurement 1
(whose visuals were hidden when the move began) does not restore the entity's
original visuals — the stored plate still has no line, text or colliders
afterwards. -/
theorem C8_counterexample :
    ((EnableMeasuringOnKeyDown stateMove1Cleared .xKey).getPO 1).map Plate.line
      = some false ∧
    ((EnableMeasuringOnKeyDown stateMove1Cleared .xKey).getPO 1).map Plate.textMesh
      = some false ∧
    ((EnableMeasuringOnKeyDown stateMove1Cleared .xKey).getPO 1).map
        Plate.startPointCollider = some false ∧
    ((EnableMeasuringOnKeyDown stateMove1Cleared .xKey).getPO 1).map
        Plate.endPointCollider = some false ∧
    ¬ ((EnableMeasuringOnKeyDown stateMove1Cleared .xKey).getPO 1).map Plate.line
        = some true :=
  ⟨rfl, rfl, rfl, rfl, by decide⟩

/-- Claim C8 (amended): `X` while a point-move is active discards the move
preview, clears `MovingPoint` and all move-selection state, issues exactly one
delete request for the moved entity, and neither toggles the primary mode nor
touches any stored plate — in particular the hidden original visuals are not
restored. -/
theorem C8_xkey_cancels_move_and_deletes (s : CState)
    (hmv : s.isMovingPoint = true) (hid : s.selectedMeasurementId ≠ -1) :
    (EnableMeasuringOnKeyDown s .xKey).movePreviewLine = false ∧
    (EnableMeasuringOnKeyDown s .xKey).movePreviewText = false ∧
    (EnableMeasuringOnKeyDown s .xKey).isMovingPoint = false ∧
    (EnableMeasuringOnKeyDown s .xKey).selectedPlateObject = false ∧
    (EnableMeasuringOnKeyDown s .xKey).selectedPointType = none ∧
    (EnableMeasuringOnKeyDown s .xKey).fixedPoint = none ∧
    (EnableMeasuringOnKeyDown s .xKey).selectedMeasurementId = -1 ∧
    (EnableMeasuringOnKeyDown s .xKey).outbox
      = .deleteReq s.selectedMeasurementId :: s.outbox ∧
    (EnableMeasuringOnKeyDown s .xKey).currentActionState = s.currentActionState ∧
    (EnableMeasuringOnKeyDown s .xKey).objects = s.objects := by
  simp only [EnableMeasuringOnKeyDown]
  rw [if_pos ⟨hmv, hid⟩]
  unfold DeleteMeasurement SendDeleteMeasurementRequestToServer
  dsimp only
  rw [if_neg hid]
  exact ⟨rfl, rfl, rfl, rfl, rfl, rfl, rfl, rfl, rfl, rfl⟩

/-- Witness for C8's amended theorem at the concrete mid-move state. -/
theorem C8_xkey_cancels_move_and_deletes_witness :
    (EnableMeasuringOnKeyDown stateMove1Cleared .xKey).movePreviewLine = false ∧
    (EnableMeasuringOnKeyDown stateMove1Cleared .xKey).movePreviewText = false ∧
    (EnableMeasuringOnKeyDown stateMove1Cleared .xKey).isMovingPoint = false ∧
    (EnableMeasuringOnKeyDown stateMove1Cleared .xKey).selectedPlateObject = false ∧
    (EnableMeasuringOnKeyDown stateMove1Cleared .xKey).selectedPointType = none ∧
    (EnableMeasuringOnKeyDown stateMove1Cleared .xKey).fixedPoint = none ∧
    (EnableMeasuringOnKeyDown stateMove1Cleared .xKey).selectedMeasurementId = -1 ∧
    (EnableMeasuringOnKeyDown stateMove1Cleared .xKey).outbox
      = .deleteReq stateMove1Cleared.selectedMeasurementId :: stateMove1Cleared.outbox ∧
    (EnableMeasuringOnKeyDown stateMove1Cleared .xKey).currentActionState
      = stateMove1Cleared.currentActionState ∧
    (EnableMeasuringOnKeyDown stateMove1Cleared .xKey).objects
      = stateMove1Cleared.objects :=
  C8_xkey_cancels_move_and_deletes stateMove1Cleared rfl (by decide)

/-- Claim C9 counterexample: entering Delete mode (via the toggle) while
measurement 2 is hover-highlighted does not clear the hover — the hovered id
stays 2 and the plate keeps its hover color. -/
theorem C9_counterexample :
    (ToggleDeleteMode stateHover2).currentActionState = ActionStates.Remove ∧
    (ToggleDeleteMode stateHover2).hoveredMeasurementId = 2 ∧
    ((ToggleDeleteMode stateHover2).getPO 2).map Plate.lineColor
      = some .colors_hover ∧
    (2 : Int) ≠ -1 :=
  ⟨rfl, rfl, rfl, by decide⟩

/-- Claim C9 (amended): entering `Create` while an entity is hover-highlighted
clears the active hover highlight — the hovered plate is recolored to the
default color and the hovered id is reset to none; entering `Delete` does not
clear it — the hovered id and all stored plates are left untouched. -/
theorem C9_hover_reset_on_mode_change (s : CState) (h : Int) (p : Plate)
    (hh : s.hoveredMeasurementId = h) (hne : h ≠ -1)
    (hpo : s.getPO h = some p) (hl : p.line = true)
    (hsc : p.startPointCollider = true) (hec : p.endPointCollider = true) :
    (SetActionState s .Add).hoveredMeasurementId = -1 ∧
    (SetActionState s .Add).currentActionState = .Add ∧
    (SetActionState s .Add).getPO h
      = some { p with lineColor := .colors_default,
                      startSphereColor := .colors_default,
                      endSphereColor := .colors_default } ∧
    (SetActionState s .Remove).hoveredMeasurementId = s.hoveredMeasurementId ∧
    (SetActionState s .Remove).currentActionState = .Remove ∧
    (SetActionState s .Remove).objects = s.objects := by
  obtain ⟨hpo1, hobj⟩ := getPO_eq_some hpo
  have hcond : ActionStates.Add ≠ ActionStates.Remove ∧ s.hoveredMeasurementId ≠ -1 :=
    ⟨by decide, by rw [hh]; exact hne⟩
  have hncond : ¬ (ActionStates.Remove ≠ ActionStates.Remove ∧
      s.hoveredMeasurementId ≠ -1) := fun hc => hc.1 rfl
  refine ⟨?_, ?_, ?_, ?_, ?_, ?_⟩
  · unfold SetActionState
    dsimp only
    rw [if_pos hcond]
  · unfold SetActionState SetMeasurementColor
    dsimp only
    rw [if_pos hcond]
    split <;> rfl
  · unfold SetActionState SetMeasurementColor
    dsimp only
    rw [if_pos hcond]
    simp only [CState.getPO, CState.setObj, hh, hpo1, hobj, if_true]
    simp [Plate.applyMeasurementColor, hl, hsc, hec, hpo1]
  · unfold SetActionState
    dsimp only
    rw [if_neg hncond]
  · unfold SetActionState
    dsimp only
    rw [if_neg hncond]
  · unfold SetActionState
    dsimp only
    rw [if_neg hncond]

/-- Witness for C9's amended theorem at the hover state on measurement 2. -/
theorem C9_hover_reset_on_mode_change_witness :
    (SetActionState stateHover2 .Add).hoveredMeasurementId = -1 ∧
    (SetActionState stateHover2 .Add).currentActionState = .Add ∧
    (SetActionState stateHover2 .Add).getPO 2
      = some { plateHover2 with lineColor := .colors_default,
                                startSphereColor := .colors_default,
                                endSphereColor := .colors_default } ∧
    (SetActionState stateHover2 .Remove).hoveredMeasurementId
      = stateHover2.hoveredMeasurementId ∧
    (SetActionState stateHover2 .Remove).currentActionState = .Remove ∧
    (SetActionState stateHover2 .Remove).objects = stateHover2.objects :=
  C9_hover_reset_on_mode_change stateHover2 2 plateHover2 rfl (by decide) rfl
    rfl rfl rfl

theorem processCreateEntry_ml_zero (st : CState) (e : Option MeasurementMsg) :
    (processCreateEntry st e).ml 0 = st.ml 0 := by
  unfold processCreateEntry
  cases e with
  | none => rfl
  | some d =>
    dsimp only
    split
    · exact tryAdd_ml_other (Ne.symm (by assumption))
    · rfl

theorem foldl_processCreateEntry_ml_zero (l : List (Option MeasurementMsg)) :
    ∀ s : CState, (l.foldl processCreateEntry s).ml 0 = s.ml 0 := by
  induction l with
  | nil => intro s; rfl
  | cons e t ih =>
    intro s
    rw [List.foldl_cons, ih (processCreateEntry s e), processCreateEntry_ml_zero]

/-- Claim C10: the inbound create batch handler rejects a non-array argument
with an error and no registry change; a batch entry that is absent or has the
falsy id 0 is rejected with a warning and key 0 is never inserted; an entry
with any nonzero id — including the sentinel `-1` — is forwarded to
`TryAddMeasurementObject`. -/
theorem C10_create_batch_validation (s : CState) :
    ReceiveCreateNewMeasurementRequestFromServer s none
      = { s with warnings := .errInvalidFormat :: s.warnings } ∧
    (∀ d : MeasurementMsg, d.measurement_instance_id = 0 →
       ReceiveCreateNewMeasurementRequestFromServer s (some [some d])
         = { s with warnings := .warnInvalidEntry :: s.warnings }) ∧
    ReceiveCreateNewMeasurementRequestFromServer s (some [none])
      = { s with warnings := .warnInvalidEntry :: s.warnings } ∧
    (∀ d : MeasurementMsg, d.measurement_instance_id ≠ 0 →
       ReceiveCreateNewMeasurementRequestFromServer s (some [some d])
         = TryAddMeasurementObject s d) ∧
    (∀ input, (ReceiveCreateNewMeasurementRequestFromServer s input).ml 0
       = s.ml 0) := by
  refine ⟨rfl, ?_, rfl, ?_, ?_⟩
  · intro d hd
    unfold ReceiveCreateNewMeasurementRequestFromServer
    simp [processCreateEntry, hd]
  · intro d hd
    unfold ReceiveCreateNewMeasurementRequestFromServer
    simp [processCreateEntry, hd]
  · intro input
    cases input with
    | none => rfl
    | some l => exact foldl_processCreateEntry_ml_zero l s

/-- Witness for C10 on the empty registry: a non-array argument, a zero-id
entry, a missing entry, the sentinel-id entry being forwarded, and key 0
staying absent across a valid batch. -/
theorem C10_create_batch_validation_witness :
    ReceiveCreateNewMeasurementRequestFromServer state0 none
      = { state0 with warnings := [.errInvalidFormat] } ∧
    ReceiveCreateNewMeasurementRequestFromServer state0 (some [some zeroIdMsg])
      = { state0 with warnings := [.warnInvalidEntry] } ∧
    ReceiveCreateNewMeasurementRequestFromServer state0 (some [none])
      = { state0 with warnings := [.warnInvalidEntry] } ∧
    ReceiveCreateNewMeasurementRequestFromServer state0 (some [some sentinelMsg])
      = TryAddMeasurementObject state0 sentinelMsg ∧
    (ReceiveCreateNewMeasurementRequestFromServer state0
        (some [some okCreateMsg7])).ml 0 = state0.ml 0 :=
  ⟨(C10_create_batch_validation state0).1,
   (C10_create_batch_validation state0).2.1 zeroIdMsg rfl,
   (C10_create_batch_validation state0).2.2.1,
   (C10_create_batch_validation state0).2.2.2.1 sentinelMsg (by decide),
   (C10_create_batch_validation state0).2.2.2.2 (some [some okCreateMsg7])⟩
